import Mathlib

/-!
Verification development for the discord-edtech-bot repository.

The definitions below are a shallow embedding of the data-access layer
(`database.py`) and of the verification cog (`src/cogs/verification.py`).
Timestamps are natural numbers (seconds); SQLite tables are Lean lists kept
in insertion (rowid) order; the Discord guild is a record of role, category
and channel name lists.  Each definition is translated directly from the
corresponding Python function.
-/

namespace DiscordBot

/-- ASCII lowercasing, embedding SQLite `LOWER(...)` and Python
`str.lower()` on the ASCII inputs this system handles. -/
def lowerStr (s : String) : String :=
  ⟨s.data.map Char.toLower⟩

/-- Python `s.replace(" ", "-")`. -/
def dashSpaces (s : String) : String :=
  ⟨s.data.map (fun c => if c == ' ' then '-' else c)⟩

/-- Case-insensitive email comparison: `LOWER(email) = LOWER(?)` in SQL. -/
def emailMatches (a b : String) : Bool :=
  lowerStr a == lowerStr b

/-! ## OTP ledger (`otp_codes` table, database.py) -/

/-- One row of the `otp_codes` table. -/
structure OtpRow where
  email : String
  code : String
  discordId : Nat
  attempts : Nat
  expiresAt : Nat
  createdAt : Nat
deriving Repr, DecidableEq

/-- Result dictionary returned by `Database.verify_otp`. -/
structure OtpResult where
  valid : Bool
  email : Option String
  error : Option String
deriving Repr, DecidableEq

/-- Message "No OTP found. Please request a new one." -/
def notFoundMsg : String := "No OTP found. Please request a new one."

/-- Message "OTP expired. Please request a new one." -/
def expiredMsg : String := "OTP expired. Please request a new one."

/-- Message "Too many failed attempts. Please request a new OTP." -/
def tooManyMsg : String := "Too many failed attempts. Please request a new OTP."

/-- Message "Invalid OTP. ... attempts remaining." where the hole is
`remaining = 2 - attempts`, computed in Python integer arithmetic. -/
def wrongCodeMsg (remaining : Int) : String :=
  "Invalid OTP. " ++ toString remaining ++ " attempts remaining."

/-- Embeds `Database.store_otp`: delete every row matching this email
(case-insensitively) OR this discord id, then insert the fresh row with
`expires_at = now + expiry_minutes` (minutes, here kept abstract as a
seconds offset `expirySecs`) and `attempts = 0`. -/
def store_otp (now : Nat) (table : List OtpRow) (email code : String)
    (discordId : Nat) (expirySecs : Nat) : List OtpRow :=
  (table.filter (fun r => !(emailMatches r.email email || r.discordId == discordId)))
    ++ [{ email := email, code := code, discordId := discordId,
          attempts := 0, expiresAt := now + expirySecs, createdAt := now }]

/-- SQL `SELECT ... FROM otp_codes WHERE discord_id = ? ORDER BY created_at
DESC LIMIT 1`: the row for this discord id with the greatest creation timestamp. -/
def findMostRecentOtp (table : List OtpRow) (discordId : Nat) : Option OtpRow :=
  (table.filter (fun r => r.discordId == discordId)).foldl
    (fun acc r =>
      match acc with
      | none => some r
      | some b => if r.createdAt > b.createdAt then some r else some b)
    none

/-- SQL `DELETE FROM otp_codes WHERE discord_id = ?`. -/
def deleteOtpFor (table : List OtpRow) (discordId : Nat) : List OtpRow :=
  table.filter (fun r => !(r.discordId == discordId))

/-- SQL `UPDATE otp_codes SET attempts = attempts + 1 WHERE discord_id = ?`. -/
def bumpAttempts (table : List OtpRow) (discordId : Nat) : List OtpRow :=
  table.map (fun r =>
    if r.discordId == discordId then { r with attempts := r.attempts + 1 } else r)

/-- Embeds `Database.verify_otp`: load the most recently created challenge for the
account, then run the terminal branches in source order (missing, expired,
attempt limit, wrong code, success).  Returns the result dictionary together
with the table after the call's side effects. -/
def verify_otp (now : Nat) (table : List OtpRow) (discordId : Nat)
    (code : String) : OtpResult × List OtpRow :=
  match findMostRecentOtp table discordId with
  | none =>
      ({ valid := false, email := none, error := some notFoundMsg }, table)
  | some row =>
      if now > row.expiresAt then
        ({ valid := false, email := some row.email, error := some expiredMsg },
         deleteOtpFor table discordId)
      else if row.attempts ≥ 3 then
        ({ valid := false, email := some row.email, error := some tooManyMsg },
         deleteOtpFor table discordId)
      else if code ≠ row.code then
        ({ valid := false, email := some row.email,
           error := some (wrongCodeMsg (2 - (row.attempts : Int))) },
         bumpAttempts table discordId)
      else
        ({ valid := true, email := some row.email, error := none },
         deleteOtpFor table discordId)

/-- Embeds `Database.get_pending_otp`: SQL `SELECT email, expires_at, created_at FROM
otp_codes WHERE discord_id = ?` and `fetchone` — the first matching row in
table order, with no expiry filter and no mutation. -/
def get_pending_otp (table : List OtpRow) (discordId : Nat) : Option OtpRow :=
  table.find? (fun r => r.discordId == discordId)

/-! ## Student registry (`students` table, database.py) -/

/-- One row of the `students` table. -/
structure StudentRow where
  email : String
  name : String
  university : String
  course : String
  batch : String
  discordId : Option Nat
  isVerified : Bool
  verifiedAt : Option Nat
deriving Repr, DecidableEq

/-- Embeds `Database.get_student_by_email`: first row whose email matches
case-insensitively. -/
def get_student_by_email (table : List StudentRow) (email : String) :
    Option StudentRow :=
  table.find? (fun r => emailMatches r.email email)

/-- Embeds `Database.verify_student`: inside one connection, first check whether any
row already has this discord id (`SELECT id FROM students WHERE discord_id
= ?`); if so return `False` without mutating; otherwise run `UPDATE students
SET discord_id = ?, is_verified = 1, verified_at = ? WHERE LOWER(email) =
LOWER(?)` and return `True`. -/
def verify_student (now : Nat) (table : List StudentRow) (email : String)
    (discordId : Nat) : Bool × List StudentRow :=
  if table.any (fun r => r.discordId == some discordId) then
    (false, table)
  else
    (true, table.map (fun r =>
      if emailMatches r.email email then
        { r with discordId := some discordId, isVerified := true,
                 verifiedAt := some now }
      else r))

/-! ## Storage-failure boundary (C7)

Each data-access method of `Database` either wraps its body in
`try/except` (and then returns `False` on a storage error) or does not
(and then a storage-layer exception propagates to the caller).  The
`fails` flag stands for "the persistence layer raises during this call";
`Except` models whether a raw exception escapes the method. -/

inductive StorageError where
  | err
deriving Repr, DecidableEq

/-- The method `Database.get_student_by_email` has no `try/except`: a storage error
propagates. -/
def get_student_by_email_call (fails : Bool) (table : List StudentRow)
    (email : String) : Except StorageError (Option StudentRow) :=
  if fails then .error .err else .ok (get_student_by_email table email)

/-- The method `Database.store_otp` has no `try/except`: a storage error propagates. -/
def store_otp_call (fails : Bool) (now : Nat) (table : List OtpRow)
    (email code : String) (discordId : Nat) (expirySecs : Nat) :
    Except StorageError (List OtpRow) :=
  if fails then .error .err
  else .ok (store_otp now table email code discordId expirySecs)

/-- The method `Database.verify_otp` has no `try/except`: a storage error propagates. -/
def verify_otp_call (fails : Bool) (now : Nat) (table : List OtpRow)
    (discordId : Nat) (code : String) :
    Except StorageError (OtpResult × List OtpRow) :=
  if fails then .error .err else .ok (verify_otp now table discordId code)

/-- The method `Database.get_pending_otp` has no `try/except`: a storage error
propagates. -/
def get_pending_otp_call (fails : Bool) (table : List OtpRow)
    (discordId : Nat) : Except StorageError (Option OtpRow) :=
  if fails then .error .err else .ok (get_pending_otp table discordId)

/-- The method `Database.log_verification_action` has no `try/except`: a storage error
propagates. -/
def log_verification_action_call (fails : Bool) (log : List String)
    (entry : String) : Except StorageError (List String) :=
  if fails then .error .err else .ok (log ++ [entry])

/-- The method `Database.verify_student` wraps its body in `try/except Exception` and
returns `False` on a storage error (the table is left as the storage layer
left it; the boolean contract is what matters here). -/
def verify_student_call (fails : Bool) (now : Nat) (table : List StudentRow)
    (email : String) (discordId : Nat) :
    Except StorageError (Bool × List StudentRow) :=
  if fails then .ok (false, table)
  else .ok (verify_student now table email discordId)

/-! ## Access resource resolver (`ensure_course_resources`, verification.py) -/

/-- Guild state: role names, category names, and text channels as
(name, category-name) pairs, each list in creation order.  `discord.utils.get`
on these collections is name lookup (and for channels also category match). -/
structure Guild where
  roles : List String
  categories : List String
  channels : List (String × Option String)
deriving Repr, DecidableEq

/-- Flags for which Discord create calls succeed; `false` models
`discord.Forbidden` being raised on every attempt of that kind. -/
structure Perms where
  canRole : Bool
  canCategory : Bool
  canChannel : Bool
deriving Repr, DecidableEq

/-- Role name: the course name suffixed with " Intern", prefixed with
"university-" when a university is given. -/
def courseRoleName (university course : String) : String :=
  if university ≠ "" then university ++ "-" ++ course ++ " Intern"
  else course ++ " Intern"

/-- Category name: "university - course" when a university is given, else
the course name alone. -/
def categoryName (university course : String) : String :=
  if university ≠ "" then university ++ " - " ++ course else course

/-- Channel-name stem `channel_prefix`: lowercase with spaces replaced by
hyphens, university-prefixed when a university is given. -/
def channelStem (university course : String) : String :=
  if university ≠ "" then
    lowerStr university ++ "-" ++ dashSpaces (lowerStr course)
  else dashSpaces (lowerStr course)

/-- Announce channel name: "announcements-" before the stem. -/
def announceChannelName (university course : String) : String :=
  "announcements-" ++ channelStem university course

/-- Discussion channel name: "discussions-" before the stem. -/
def discussionChannelName (university course : String) : String :=
  "discussions-" ++ channelStem university course

/-- Channel creation step 3a/3b: look up the channel by name within the
category; when absent, create it if permitted, otherwise only log. -/
def ensureChannel (g : Guild) (perms : Perms) (name : String)
    (cat : String) : Guild :=
  if (g.channels.find? (fun c => c.1 == name && c.2 == some cat)).isSome then g
  else if perms.canChannel then
    { g with channels := g.channels ++ [(name, some cat)] }
  else g

/-- Step 3 of `ensure_course_resources`: the two shared channels inside the
category, then return the handles `(course_role, category)`. -/
def ensureCourseChannels (g : Guild) (perms : Perms)
    (university course roleName catName : String) :
    (Option String × Option String) × Guild :=
  let g := ensureChannel g perms (announceChannelName university course) catName
  let g := ensureChannel g perms (discussionChannelName university course) catName
  ((some roleName, some catName), g)

/-- Steps 2 and 3 of `ensure_course_resources`, entered once the course role
exists: get-or-create the category, returning `(course_role, None)` on a
`Forbidden` during category creation. -/
def ensureCourseFromRole (g : Guild) (perms : Perms)
    (university course roleName catName : String) :
    (Option String × Option String) × Guild :=
  if (g.categories.find? (fun c => c == catName)).isSome then
    ensureCourseChannels g perms university course roleName catName
  else if perms.canCategory then
    ensureCourseChannels { g with categories := g.categories ++ [catName] }
      perms university course roleName catName
  else ((some roleName, none), g)

/-- Embeds `Verification.ensure_course_resources`: empty course name returns
`(None, None)`; then get-or-create the course role (returning `(None, None)`
on a Forbidden), get-or-create the category (returning `(role, None)` on a
Forbidden), and get-or-create the two shared channels (Forbidden there is
logged only).  Handles are the deterministic names the entities are keyed
by. -/
def ensure_course_resources (g : Guild) (perms : Perms)
    (university course : String) :
    (Option String × Option String) × Guild :=
  if course = "" then ((none, none), g)
  else
    let roleName := courseRoleName university course
    let catName := categoryName university course
    -- 1. course role
    if (g.roles.find? (fun r => r == roleName)).isSome then
      ensureCourseFromRole g perms university course roleName catName
    else if perms.canRole then
      ensureCourseFromRole { g with roles := g.roles ++ [roleName] }
        perms university course roleName catName
    else ((none, none), g)

/-! ## Mail dispatch policy (`send_otp_email`, verification.py) -/

/-- Credential configuration read from the environment in `__init__`. -/
structure MailerConfig where
  emails : List String
  passwords : List String
  fallbackEmail : String
  fallbackPassword : String
  threshold : Nat
deriving Repr, DecidableEq

/-- The cog's mutable rotation counters (`current_email_index`,
`mail_counter`). -/
structure MailerState where
  currentEmailIndex : Nat
  mailCounter : Nat
deriving Repr, DecidableEq

/-- Python `list_config_ok = bool(self.emails) and bool(self.passwords) and
(len(self.emails) == len(self.passwords))`. -/
def listConfigOk (cfg : MailerConfig) : Bool :=
  !cfg.emails.isEmpty && !cfg.passwords.isEmpty
    && (cfg.emails.length == cfg.passwords.length)

/-- Embeds the fallback section of `send_otp_email`: try `SMTP_EMAIL` once when both
fallback credentials are configured; otherwise fail. -/
def sendFallback (cfg : MailerConfig) (sendOk : String → Bool)
    (st : MailerState) : Bool × MailerState :=
  if cfg.fallbackEmail ≠ "" && cfg.fallbackPassword ≠ "" then
    (sendOk cfg.fallbackEmail, st)
  else (false, st)

/-- Embeds `Verification.send_otp_email`: when the pool is usable, rotate first if
the counter has reached the threshold (advance the index, wrapping to 0 at
the end of the pool, and reset the counter), then send with the current pool
credential; on success bump the counter, on failure fall through to the
single fallback credential.  `sendOk u` tells whether an SMTP send as user
`u` succeeds during this call. -/
def send_otp_email (cfg : MailerConfig) (sendOk : String → Bool)
    (st : MailerState) : Bool × MailerState :=
  if listConfigOk cfg then
    let st :=
      if st.mailCounter ≥ cfg.threshold then
        let i := st.currentEmailIndex + 1
        { currentEmailIndex := if i ≥ cfg.emails.length then 0 else i,
          mailCounter := 0 }
      else st
    let currentUser := cfg.emails.getD st.currentEmailIndex ""
    if sendOk currentUser then
      (true, { st with mailCounter := st.mailCounter + 1 })
    else sendFallback cfg sendOk st
  else sendFallback cfg sendOk st

/-! ## Reverify command (`reverify`, verification.py) -/

/-- What the `/reverify` handler replies with. -/
inductive ReverifyOutcome where
  /-- Reply "No Pending Verification ... use /verify to start." -/
  | noPending
  /-- Reply "Please Wait", with the remaining cooldown seconds. -/
  | onCooldown (remaining : Nat)
  /-- A new code was generated and stored for this email; `sent` is the
  mail-dispatch result. -/
  | issued (email : String) (sent : Bool)
deriving Repr, DecidableEq

/-- Embeds `Verification.is_on_cooldown`: the process-local cooldown map holds a
cooldown-end time per user; on cooldown while `now < end`. -/
def is_on_cooldown (cooldowns : List (Nat × Nat)) (now userId : Nat) :
    Bool × Nat :=
  match cooldowns.find? (fun c => c.1 == userId) with
  | some c => if now < c.2 then (true, c.2 - now) else (false, 0)
  | none => (false, 0)

/-- Embeds `Verification.reverify`: look up a pending OTP row (no expiry filter);
none → tell the caller to start fresh; else reject while on cooldown; else
store a fresh code for the stored row's email and dispatch it. -/
def reverify (now : Nat) (table : List OtpRow) (cooldowns : List (Nat × Nat))
    (userId : Nat) (newCode : String) (expirySecs : Nat) (sent : Bool) :
    ReverifyOutcome × List OtpRow :=
  match get_pending_otp table userId with
  | none => (.noPending, table)
  | some pending =>
      match is_on_cooldown cooldowns now userId with
      | (true, remaining) => (.onCooldown remaining, table)
      | (false, _) =>
          (.issued pending.email sent,
           store_otp now table pending.email newCode userId expirySecs)

/-! ## Helper definitions and lemmas for the proofs -/

/-- The fresh row inserted by `store_otp`. -/
def freshOtpRow (now : Nat) (email code : String) (discordId : Nat)
    (expirySecs : Nat) : OtpRow :=
  { email := email, code := code, discordId := discordId,
    attempts := 0, expiresAt := now + expirySecs, createdAt := now }

/-- After `store_otp`, the rows for the target account are exactly the fresh
row: the delete-before-insert step removed every earlier one. -/
lemma store_otp_filter_discordId (now : Nat) (table : List OtpRow)
    (email code : String) (id es : Nat) :
    (store_otp now table email code id es).filter (fun r => r.discordId == id)
      = [freshOtpRow now email code id es] := by
  unfold store_otp freshOtpRow
  rw [List.filter_append, List.filter_filter]
  have h1 : table.filter
      (fun a => a.discordId == id
        && !(emailMatches a.email email || a.discordId == id)) = [] := by
    apply List.filter_eq_nil_iff.mpr
    intro a _
    by_cases h : a.discordId == id <;> simp_all
  rw [h1]
  simp

/-- After `store_otp`, the rows matching the target email are exactly the
fresh row. -/
lemma store_otp_filter_email (now : Nat) (table : List OtpRow)
    (email code : String) (id es : Nat) :
    (store_otp now table email code id es).filter
        (fun r => emailMatches r.email email)
      = [freshOtpRow now email code id es] := by
  unfold store_otp freshOtpRow
  rw [List.filter_append, List.filter_filter]
  have h1 : table.filter
      (fun r => emailMatches r.email email
        && !(emailMatches r.email email || r.discordId == id)) = [] := by
    apply List.filter_eq_nil_iff.mpr
    intro a _
    by_cases h : emailMatches a.email email <;> simp_all
  rw [h1]
  simp [emailMatches]

/-- When the account's rows form a singleton, the most-recent lookup returns
that row. -/
lemma findMostRecentOtp_of_filter_singleton (table : List OtpRow)
    (id : Nat) (r : OtpRow)
    (h : table.filter (fun x => x.discordId == id) = [r]) :
    findMostRecentOtp table id = some r := by
  unfold findMostRecentOtp
  rw [h]
  rfl

/-- Incrementing the attempt counters commutes with selecting the account's
rows, since the update leaves the discord id untouched. -/
lemma bumpAttempts_filter (table : List OtpRow) (id : Nat) :
    (bumpAttempts table id).filter (fun r => r.discordId == id)
      = (table.filter (fun r => r.discordId == id)).map
          (fun r => { r with attempts := r.attempts + 1 }) := by
  induction table with
  | nil => rfl
  | cons a l ih =>
      by_cases h : a.discordId == id <;>
        simp [bumpAttempts, List.filter, h, ih] <;>
        simp_all [bumpAttempts]

/-! ## C1: decision order of `verify_otp` -/

/-- C1: for every stored OTP challenge state and every single
`validate(accountId, submittedCode)` call, the result is decided by this
order of terminal branches: no challenge for the account (loading the most
recently created one) → invalid, NOT_FOUND, no mutation; now strictly past
the expiry → challenge deleted and EXPIRED regardless of code correctness or
attempt count; attempts at least 3 → deleted and TOO_MANY_ATTEMPTS; code
mismatch → counter incremented and WRONG_CODE reporting 2 minus the
pre-increment counter attempts remaining; otherwise deleted and valid with
the challenge email. -/
theorem verify_otp_branch_order (now : Nat) (table : List OtpRow)
    (discordId : Nat) (code : String) :
    (findMostRecentOtp table discordId = none →
       verify_otp now table discordId code =
         ({ valid := false, email := none, error := some notFoundMsg },
          table)) ∧
    (∀ row, findMostRecentOtp table discordId = some row →
      (now > row.expiresAt →
         verify_otp now table discordId code =
           ({ valid := false, email := some row.email,
              error := some expiredMsg },
            deleteOtpFor table discordId)) ∧
      (now ≤ row.expiresAt → 3 ≤ row.attempts →
         verify_otp now table discordId code =
           ({ valid := false, email := some row.email,
              error := some tooManyMsg },
            deleteOtpFor table discordId)) ∧
      (now ≤ row.expiresAt → row.attempts < 3 → code ≠ row.code →
         verify_otp now table discordId code =
           ({ valid := false, email := some row.email,
              error := some (wrongCodeMsg (2 - (row.attempts : Int))) },
            bumpAttempts table discordId)) ∧
      (now ≤ row.expiresAt → row.attempts < 3 → code = row.code →
         verify_otp now table discordId code =
           ({ valid := true, email := some row.email, error := none },
            deleteOtpFor table discordId))) := by
  refine ⟨fun h => by simp [verify_otp, h], fun row h => ?_⟩
  refine ⟨fun hexp => by simp [verify_otp, h, hexp], ?_, ?_, ?_⟩
  · intro hle hatt
    have hx : ¬ now > row.expiresAt := by omega
    simp [verify_otp, h, hx, hatt]
  · intro hle hatt hne
    have h1 : ¬ now > row.expiresAt := by omega
    have h2 : ¬ row.attempts ≥ 3 := by omega
    simp [verify_otp, h, h1, h2, hne]
  · intro hle hatt heq
    have h1 : ¬ now > row.expiresAt := by omega
    have h2 : ¬ row.attempts ≥ 3 := by omega
    simp [verify_otp, h, h1, h2, heq]

/-- Concrete run of the C1 theorem: a wrong submission against a live
challenge with one prior failed attempt increments the counter and reports
one attempt remaining. -/
theorem verify_otp_branch_order_witness :
    verify_otp 5 [⟨"a@x.com", "123456", 7, 1, 300, 0⟩] 7 "000000" =
      ({ valid := false, email := some "a@x.com",
         error := some (wrongCodeMsg 1) },
       bumpAttempts [⟨"a@x.com", "123456", 7, 1, 300, 0⟩] 7) := by
  have h := ((verify_otp_branch_order 5 [⟨"a@x.com", "123456", 7, 1, 300, 0⟩]
      7 "000000").2 ⟨"a@x.com", "123456", 7, 1, 300, 0⟩ (by decide)).2.2.1
    (by decide) (by decide) (by decide)
  exact h

/-! ## C3: delete-before-insert on issue -/

/-- C3: issuing a new OTP first deletes any challenge matching the email
case-insensitively or the account id, then inserts the fresh challenge with
the computed expiry, so the account's rows (and the email's rows) are exactly
the fresh challenge — at most one live challenge per account — and a
previously issued code different from the new one never validates
afterwards. -/
theorem store_otp_single_live (now now2 es : Nat) (table : List OtpRow)
    (email code oldCode : String) (id : Nat) :
    ((store_otp now table email code id es).filter
        (fun r => r.discordId == id) = [freshOtpRow now email code id es]) ∧
    ((store_otp now table email code id es).filter
        (fun r => emailMatches r.email email)
      = [freshOtpRow now email code id es]) ∧
    (oldCode ≠ code →
      (verify_otp now2 (store_otp now table email code id es) id
          oldCode).1.valid = false) := by
  refine ⟨store_otp_filter_discordId now table email code id es,
          store_otp_filter_email now table email code id es, ?_⟩
  intro hne
  have hm : findMostRecentOtp (store_otp now table email code id es) id
      = some (freshOtpRow now email code id es) :=
    findMostRecentOtp_of_filter_singleton _ _ _
      (store_otp_filter_discordId now table email code id es)
  by_cases hexp : now2 > now + es
  · simp [verify_otp, hm, freshOtpRow, hexp]
  · simp [verify_otp, hm, freshOtpRow, hexp, hne]

/-- Concrete run of the C3 theorem: after a fresh issue, the code of the
replaced challenge no longer validates. -/
theorem store_otp_single_live_witness :
    (verify_otp 1 (store_otp 0 [⟨"a@x.com", "111111", 7, 0, 300, 0⟩]
        "a@x.com" "654321" 7 300) 7 "111111").1.valid = false :=
  (store_otp_single_live 0 1 300 [⟨"a@x.com", "111111", 7, 0, 300, 0⟩]
    "a@x.com" "654321" "111111" 7).2.2 (by decide)

/-! ## C5: bind conflict rules of `verify_student` -/

/-- C5: `bind(email, accountId)` returns false and leaves every student
record unchanged whenever the account id is already bound to a different
record (the check runs inside the same database interaction immediately
before the update); and whenever it reports success its only mutation is to
set the bound account id, the verified flag and the verification timestamp on
the records whose email matches case-insensitively. -/
theorem verify_student_bind_rules (now : Nat) (table : List StudentRow)
    (email : String) (id : Nat) :
    ((∃ r ∈ table, r.discordId = some id ∧ emailMatches r.email email = false) →
       verify_student now table email id = (false, table)) ∧
    (∀ t2, verify_student now table email id = (true, t2) →
       t2 = table.map (fun r =>
         if emailMatches r.email email then
           { r with discordId := some id, isVerified := true,
                    verifiedAt := some now }
         else r)) := by
  constructor
  · rintro ⟨r, hr, hid, -⟩
    have hb : table.any (fun x => x.discordId == some id) = true :=
      List.any_eq_true.mpr ⟨r, hr, by simp [hid]⟩
    simp [verify_student, hb]
  · intro t2 h
    by_cases hb : table.any (fun x => x.discordId == some id)
    · simp [verify_student, hb] at h
    · simp [verify_student, hb] at h
      exact h.symm

/-- Concrete run of the C5 theorem: binding fails without mutation when the
account is already bound to a record with a different email. -/
theorem verify_student_bind_rules_witness :
    verify_student 50 [⟨"b@x.com", "B", "VTU", "C", "T", some 7, true, some 1⟩]
        "a@x.com" 7
      = (false, [⟨"b@x.com", "B", "VTU", "C", "T", some 7, true, some 1⟩]) :=
  (verify_student_bind_rules 50
    [⟨"b@x.com", "B", "VTU", "C", "T", some 7, true, some 1⟩] "a@x.com" 7).1
    (by decide)

/-! ## C10: success report with no matching row -/

/-- C10: when the email matches no student record case-insensitively and the
account id is bound to no record, `verify_student` returns true while
changing no record at all — the update matches zero rows, so a true return
does not guarantee a binding was written. -/
theorem verify_student_unknown_email_true (now : Nat) (table : List StudentRow)
    (email : String) (did : Nat)
    (h1 : ∀ r ∈ table, emailMatches r.email email = false)
    (h2 : ∀ r ∈ table, r.discordId ≠ some did) :
    verify_student now table email did = (true, table) := by
  have hb : table.any (fun x => x.discordId == some did) = false := by
    rw [List.any_eq_false]
    intro r hr
    simp [h2 r hr]
  have hmap : table.map (fun r =>
      if emailMatches r.email email then
        { r with discordId := some did, isVerified := true,
                 verifiedAt := some now }
      else r) = table := by
    have hc : ∀ r ∈ table, (if emailMatches r.email email then
        { r with discordId := some did, isVerified := true,
                 verifiedAt := some now }
      else r) = r := by
      intro r hr
      simp [h1 r hr]
    rw [List.map_congr_left hc]
    exact List.map_id' table
  simp [verify_student, hb, hmap]

/-- Concrete run of the C10 theorem: a registry with one unrelated record
reports success for an unknown email without writing anything. -/
theorem verify_student_unknown_email_true_witness :
    verify_student 9 [⟨"b@x.com", "B", "VTU", "C", "T", none, false, none⟩]
        "ghost@x.com" 42
      = (true, [⟨"b@x.com", "B", "VTU", "C", "T", none, false, none⟩]) :=
  verify_student_unknown_email_true 9
    [⟨"b@x.com", "B", "VTU", "C", "T", none, false, none⟩] "ghost@x.com" 42
    (by decide) (by decide)

/-! ## C4: the attempt counter across validate calls -/

/-- A wrong submission against a live challenge stored as the account's only
row leaves that row with its counter incremented by one. -/
lemma verify_otp_wrong_filter (now : Nat) (t : List OtpRow) (id : Nat)
    (r : OtpRow) (c : String)
    (hf : t.filter (fun x => x.discordId == id) = [r])
    (hexp : now ≤ r.expiresAt) (hatt : r.attempts < 3) (hne : c ≠ r.code) :
    (verify_otp now t id c).2.filter (fun x => x.discordId == id)
      = [{ r with attempts := r.attempts + 1 }] := by
  have hm := findMostRecentOtp_of_filter_singleton t id r hf
  have h1 : ¬ now > r.expiresAt := by omega
  have h2 : ¬ r.attempts ≥ 3 := by omega
  simp [verify_otp, hm, h1, h2, hne, bumpAttempts_filter, hf]

/-- A validate call that selects a challenge already at the attempt limit
reports the too-many-attempts outcome. -/
lemma verify_otp_result_tooMany (now : Nat) (t : List OtpRow) (id : Nat)
    (c : String) (r : OtpRow) (hm : findMostRecentOtp t id = some r)
    (hexp : ¬ now > r.expiresAt) (hatt : 3 ≤ r.attempts) :
    (verify_otp now t id c).1
      = { valid := false, email := some r.email, error := some tooManyMsg } := by
  simp [verify_otp, hm, hexp, hatt]

/-- C4: across validate calls the stored attempt counter moves exactly on the
WRONG_CODE branch (all other outcomes either leave the table unchanged or
delete the account's rows), a fresh issue replaces the challenge with counter
0, and on one non-expired challenge three wrong submissions followed by a
fourth submission of even the correct code yield the too-many-attempts
outcome, not success. -/
theorem verify_otp_attempt_counter (now es : Nat) (table t : List OtpRow)
    (id : Nat) (email code : String) :
    (∀ row, findMostRecentOtp t id = some row → now ≤ row.expiresAt →
       row.attempts < 3 → ∀ c, c ≠ row.code →
         (verify_otp now t id c).2 = bumpAttempts t id) ∧
    (findMostRecentOtp t id = none → (verify_otp now t id code).2 = t) ∧
    (∀ row, findMostRecentOtp t id = some row →
       ¬ (now ≤ row.expiresAt ∧ row.attempts < 3 ∧ code ≠ row.code) →
         (verify_otp now t id code).2 = deleteOtpFor t id) ∧
    ((store_otp now table email code id es).filter
        (fun r => r.discordId == id) = [freshOtpRow now email code id es]) ∧
    (∀ w1 w2 w3 : String, ∀ n1 n2 n3 n4 : Nat,
       w1 ≠ code → w2 ≠ code → w3 ≠ code →
       n1 ≤ now + es → n2 ≤ now + es → n3 ≤ now + es → n4 ≤ now + es →
       (verify_otp n4
          ((verify_otp n3
             ((verify_otp n2
                ((verify_otp n1 (store_otp now table email code id es)
                    id w1).2)
                id w2).2)
             id w3).2)
          id code).1
        = { valid := false, email := some email,
            error := some tooManyMsg }) := by
  refine ⟨?_, ?_, ?_, store_otp_filter_discordId now table email code id es, ?_⟩
  · intro row hm hle hatt c hne
    have h1 : ¬ now > row.expiresAt := by omega
    have h2 : ¬ row.attempts ≥ 3 := by omega
    simp [verify_otp, hm, h1, h2, hne]
  · intro hm
    simp [verify_otp, hm]
  · intro row hm hnot
    by_cases hexp : now > row.expiresAt
    · simp [verify_otp, hm, hexp]
    · by_cases hatt : row.attempts ≥ 3
      · simp [verify_otp, hm, hexp, hatt]
      · have heq : code = row.code := by
          by_contra hne
          exact hnot ⟨by omega, by omega, hne⟩
        simp [verify_otp, hm, hexp, hatt, heq]
  · intro w1 w2 w3 n1 n2 n3 n4 hw1 hw2 hw3 hn1 hn2 hn3 hn4
    have h0 := store_otp_filter_discordId now table email code id es
    have h1 := verify_otp_wrong_filter n1
      (store_otp now table email code id es) id
      ⟨email, code, id, 0, now + es, now⟩ w1
      (by simpa [freshOtpRow] using h0) hn1 (by show (0:Nat) < 3; omega) hw1
    have h2 := verify_otp_wrong_filter n2 _ id
      ⟨email, code, id, 1, now + es, now⟩ w2
      (by simpa using h1) hn2 (by show (1:Nat) < 3; omega) hw2
    have h3 := verify_otp_wrong_filter n3 _ id
      ⟨email, code, id, 2, now + es, now⟩ w3
      (by simpa using h2) hn3 (by show (2:Nat) < 3; omega) hw3
    have hm := findMostRecentOtp_of_filter_singleton _ id
      ⟨email, code, id, 3, now + es, now⟩
      (by simpa using h3)
    exact verify_otp_result_tooMany n4 _ id code
      ⟨email, code, id, 3, now + es, now⟩ hm
      (by show ¬ n4 > now + es; omega) (by show 3 ≤ 3; omega)

/-- Concrete run of the C4 theorem: a freshly issued code, three wrong
guesses, then the correct code — the fourth call reports too many failed
attempts instead of success. -/
theorem verify_otp_attempt_counter_witness :
    (verify_otp 4
       ((verify_otp 3
          ((verify_otp 2
             ((verify_otp 1 (store_otp 0 [] "a@x.com" "123456" 7 300)
                 7 "000001").2)
             7 "000002").2)
          7 "000003").2)
       7 "123456").1
     = { valid := false, email := some "a@x.com",
         error := some tooManyMsg } :=
  (verify_otp_attempt_counter 0 300 [] [] 7 "a@x.com" "123456").2.2.2.2
    "000001" "000002" "000003" 1 2 3 4
    (by decide) (by decide) (by decide)
    (by omega) (by omega) (by omega) (by omega)

/-! ## C6: the stored attempt counter bound -/

/-- Result table of a validate call that found no challenge. -/
lemma verify_otp_table_notFound (now : Nat) (t : List OtpRow) (id : Nat)
    (c : String) (hm : findMostRecentOtp t id = none) :
    (verify_otp now t id c).2 = t := by
  simp [verify_otp, hm]

/-- Result table of a validate call that hit a deleting branch: expiry,
attempt limit, or success. -/
lemma verify_otp_table_deleted (now : Nat) (t : List OtpRow) (id : Nat)
    (c : String) (r : OtpRow) (hm : findMostRecentOtp t id = some r)
    (h : now > r.expiresAt ∨ 3 ≤ r.attempts ∨ c = r.code) :
    (verify_otp now t id c).2 = deleteOtpFor t id := by
  by_cases hexp : now > r.expiresAt
  · simp [verify_otp, hm, hexp]
  · by_cases hatt : r.attempts ≥ 3
    · simp [verify_otp, hm, hexp, hatt]
    · have hc : c = r.code := by
        rcases h with h | h | h
        · omega
        · omega
        · exact h
      simp [verify_otp, hm, hexp, hatt, hc]

/-- Result table of a validate call that hit the wrong-code branch. -/
lemma verify_otp_table_wrong (now : Nat) (t : List OtpRow) (id : Nat)
    (c : String) (r : OtpRow) (hm : findMostRecentOtp t id = some r)
    (hexp : ¬ now > r.expiresAt) (hatt : r.attempts < 3) (hne : c ≠ r.code) :
    (verify_otp now t id c).2 = bumpAttempts t id := by
  have h2 : ¬ r.attempts ≥ 3 := by omega
  simp [verify_otp, hm, hexp, h2, hne]

/-- The newest-row fold returns an element of the folded list or the
starting accumulator. -/
lemma foldl_newest_mem (l : List OtpRow) :
    ∀ (acc : Option OtpRow) (r : OtpRow),
      l.foldl (fun acc x =>
        match acc with
        | none => some x
        | some b => if x.createdAt > b.createdAt then some x else some b)
        acc = some r →
      r ∈ l ∨ acc = some r := by
  induction l with
  | nil =>
      intro acc r h
      right
      exact h
  | cons a l ih =>
      intro acc r h
      rcases ih _ r h with hmem | hacc
      · left
        exact List.mem_cons_of_mem _ hmem
      · cases acc with
        | none =>
            left
            have : a = r := by simpa using hacc
            simp [this]
        | some b =>
            by_cases hc : a.createdAt > b.createdAt
            · left
              have : a = r := by simpa [hc] using hacc
              simp [this]
            · right
              have : b = r := by simpa [hc] using hacc
              simp [this]

/-- The row selected by the most-recent lookup is one of the account's
stored rows. -/
lemma findMostRecentOtp_mem_filter (t : List OtpRow) (id : Nat) (r : OtpRow)
    (h : findMostRecentOtp t id = some r) :
    r ∈ t.filter (fun x => x.discordId == id) := by
  unfold findMostRecentOtp at h
  rcases foldl_newest_mem _ none r h with hm | hacc
  · exact hm
  · simp at hacc

/-- Rows surviving a delete-by-account no longer carry that account id. -/
lemma deleteOtpFor_not_id (t : List OtpRow) (id : Nat) (r : OtpRow)
    (h : r ∈ deleteOtpFor t id) : r.discordId ≠ id := by
  have := (List.mem_filter.mp h).2
  simpa using this

/-- C6 counterexample: three wrong submissions against a freshly issued
challenge leave a stored row whose attempt counter equals 3, outside the
claimed interval, and the wrong-code check that raised it to 3 did not
delete it. -/
theorem third_wrong_submission_keeps_row :
    ((verify_otp 3 ((verify_otp 2 ((verify_otp 1
        (store_otp 0 [] "a@x.com" "123456" 7 300) 7 "000001").2)
        7 "000002").2) 7 "000003").2)
      = [⟨"a@x.com", "123456", 7, 3, 300, 0⟩] := by decide

/-- C6 (amended): in any table where accounts determine their row uniquely
the attempt counter stays in the interval from 0 to 3 inclusive across
validate calls (it reaches exactly 3 after the third wrong submission), and
once a validate call observes a challenge past its expiry or with the
counter at the limit, that challenge is deleted as a side effect of that
same failed check, so no row for the account remains stored. -/
theorem verify_otp_attempt_invariant (now : Nat) (t : List OtpRow)
    (id : Nat) (code : String)
    (hone : ∀ r1 ∈ t, ∀ r2 ∈ t, r1.discordId = r2.discordId → r1 = r2)
    (hb : ∀ r ∈ t, r.attempts ≤ 3) :
    (∀ r ∈ (verify_otp now t id code).2, r.attempts ≤ 3) ∧
    (∀ row, findMostRecentOtp t id = some row →
       now > row.expiresAt ∨ 3 ≤ row.attempts →
       (verify_otp now t id code).2 = deleteOtpFor t id ∧
       ∀ r2 ∈ (verify_otp now t id code).2, r2.discordId ≠ id) := by
  constructor
  · cases hm : findMostRecentOtp t id with
    | none =>
        rw [verify_otp_table_notFound now t id code hm]
        exact hb
    | some row =>
        by_cases hexp : now > row.expiresAt
        · rw [verify_otp_table_deleted now t id code row hm (Or.inl hexp)]
          intro r hr
          exact hb r (List.mem_of_mem_filter hr)
        · by_cases hatt : row.attempts ≥ 3
          · rw [verify_otp_table_deleted now t id code row hm
              (Or.inr (Or.inl hatt))]
            intro r hr
            exact hb r (List.mem_of_mem_filter hr)
          · by_cases hne : code = row.code
            · rw [verify_otp_table_deleted now t id code row hm
                (Or.inr (Or.inr hne))]
              intro r hr
              exact hb r (List.mem_of_mem_filter hr)
            · rw [verify_otp_table_wrong now t id code row hm hexp
                (by omega) hne]
              intro r hr
              rcases List.mem_map.mp hr with ⟨r0, hr0, rfl⟩
              by_cases hid : r0.discordId == id
              · have hrowf := findMostRecentOtp_mem_filter t id row hm
                have hrow_mem := List.mem_of_mem_filter hrowf
                have hrow_id : row.discordId = id := by
                  simpa using (List.mem_filter.mp hrowf).2
                have hr0_id : r0.discordId = id := by simpa using hid
                have heq : r0 = row :=
                  hone r0 hr0 row hrow_mem (by rw [hr0_id, hrow_id])
                simp only [hid, if_true]
                subst heq
                omega
              · simp only [hid]
                simp only [Bool.false_eq_true, if_false]
                exact hb r0 hr0
  · intro row hm hcond
    have hdel : (verify_otp now t id code).2 = deleteOtpFor t id := by
      rcases hcond with h | h
      · exact verify_otp_table_deleted now t id code row hm (Or.inl h)
      · exact verify_otp_table_deleted now t id code row hm (Or.inr (Or.inl h))
    refine ⟨hdel, ?_⟩
    intro r2 hr2
    rw [hdel] at hr2
    exact deleteOtpFor_not_id t id r2 hr2

/-- Concrete run of the amended C6 theorem: a challenge whose counter sits at
the limit is removed by the very check that rejects the submission. -/
theorem verify_otp_attempt_invariant_witness :
    (verify_otp 1 [⟨"a@x.com", "123456", 7, 3, 300, 0⟩] 7 "123456").2
      = deleteOtpFor [⟨"a@x.com", "123456", 7, 3, 300, 0⟩] 7 :=
  ((verify_otp_attempt_invariant 1 [⟨"a@x.com", "123456", 7, 3, 300, 0⟩]
      7 "123456" (by decide) (by decide)).2
    ⟨"a@x.com", "123456", 7, 3, 300, 0⟩ (by decide) (Or.inr (by decide))).1

/-! ## C7: storage errors at the data-access boundary -/

/-- C7 counterexample: a storage-layer error during the OTP store operation
escapes the data-access layer as a raw exception instead of being converted
to a boolean or empty-result sentinel. -/
theorem store_otp_error_escapes :
    store_otp_call true 0 [] "a@x.com" "123456" 7 300
      = Except.error StorageError.err := rfl

/-- C7 (amended): the binding operation catches storage errors and converts
them to boolean false, but the student lookup, OTP store, OTP validate, OTP
peek and audit append operations have no handler at the data-access
boundary, so a storage-layer error propagates out of them as a raw
exception. -/
theorem storage_error_boundary (now es : Nat) (t : List OtpRow)
    (s : List StudentRow) (email code : String) (id : Nat)
    (log : List String) (entry : String) :
    verify_student_call true now s email id = Except.ok (false, s) ∧
    get_student_by_email_call true s email
      = Except.error StorageError.err ∧
    store_otp_call true now t email code id es
      = Except.error StorageError.err ∧
    verify_otp_call true now t id code = Except.error StorageError.err ∧
    get_pending_otp_call true t id = Except.error StorageError.err ∧
    log_verification_action_call true log entry
      = Except.error StorageError.err :=
  ⟨rfl, rfl, rfl, rfl, rfl, rfl⟩

/-! ## C8: the reverify precondition -/

/-- C8 counterexample: with only an expired challenge stored (expiry 10, now
1000) and no cooldown, reverify proceeds and issues a new code instead of
instructing the caller to start fresh. -/
theorem reverify_proceeds_on_expired_challenge :
    (reverify 1000 [⟨"a@x.com", "123456", 7, 0, 10, 0⟩] [] 7 "654321"
        300 true).1
      = ReverifyOutcome.issued "a@x.com" true := by decide

/-- C8 (amended): reverify proceeds to re-issue a new code for the stored
challenge's email whenever any challenge row exists for the account in the
ledger, regardless of expiry; only when no challenge at all is stored does
it instruct the caller to start fresh and issue nothing; when a challenge
exists it is subject to the same per-account cooldown as the initial
request. -/
theorem reverify_pending_rules (now : Nat) (t : List OtpRow)
    (cooldowns : List (Nat × Nat)) (userId : Nat) (newCode : String)
    (es : Nat) (sent : Bool) :
    (get_pending_otp t userId = none →
       reverify now t cooldowns userId newCode es sent
         = (.noPending, t)) ∧
    (∀ p, get_pending_otp t userId = some p →
       ((is_on_cooldown cooldowns now userId).1 = true →
          reverify now t cooldowns userId newCode es sent
            = (.onCooldown (is_on_cooldown cooldowns now userId).2, t)) ∧
       ((is_on_cooldown cooldowns now userId).1 = false →
          reverify now t cooldowns userId newCode es sent
            = (.issued p.email sent,
               store_otp now t p.email newCode userId es))) := by
  refine ⟨fun h => by simp [reverify, h], fun p hp => ⟨?_, ?_⟩⟩
  · intro hcd
    rcases hco : is_on_cooldown cooldowns now userId with ⟨b, rem⟩
    rw [hco] at hcd
    simp at hcd
    subst hcd
    simp [reverify, hp, hco]
  · intro hcd
    rcases hco : is_on_cooldown cooldowns now userId with ⟨b, rem⟩
    rw [hco] at hcd
    simp at hcd
    subst hcd
    simp [reverify, hp, hco]

/-- Concrete run of the amended C8 theorem: with a live challenge and no
cooldown, reverify stores a fresh code for the same email. -/
theorem reverify_pending_rules_witness :
    reverify 5 [⟨"a@x.com", "123456", 7, 0, 300, 0⟩] [] 7 "999999" 300 true
      = (ReverifyOutcome.issued "a@x.com" true,
         store_otp 5 [⟨"a@x.com", "123456", 7, 0, 300, 0⟩] "a@x.com"
           "999999" 7 300) :=
  ((reverify_pending_rules 5 [⟨"a@x.com", "123456", 7, 0, 300, 0⟩] [] 7
      "999999" 300 true).2 ⟨"a@x.com", "123456", 7, 0, 300, 0⟩
    (by decide)).2 (by decide)

/-! ## C9: the mail dispatch policy -/

/-- State after the pre-send rotation check: reaching the threshold advances
the pool index, wrapping to 0 past the end, and resets the counter. -/
def rotatedState (cfg : MailerConfig) (st : MailerState) : MailerState :=
  if st.mailCounter ≥ cfg.threshold then
    { currentEmailIndex :=
        if st.currentEmailIndex + 1 ≥ cfg.emails.length then 0
        else st.currentEmailIndex + 1,
      mailCounter := 0 }
  else st

/-- The pool credential used for this send, after the rotation check. -/
def currentPoolUser (cfg : MailerConfig) (st : MailerState) : String :=
  cfg.emails.getD (rotatedState cfg st).currentEmailIndex ""

/-- Python truthiness of both fallback credentials. -/
def fallbackConfigured (cfg : MailerConfig) : Bool :=
  cfg.fallbackEmail ≠ "" && cfg.fallbackPassword ≠ ""

/-- The fallback section returns the fallback send result when configured
and false otherwise, never touching the rotation state. -/
lemma sendFallback_eq (cfg : MailerConfig) (sendOk : String → Bool)
    (st : MailerState) :
    sendFallback cfg sendOk st
      = (fallbackConfigured cfg && sendOk cfg.fallbackEmail, st) := by
  unfold sendFallback fallbackConfigured
  by_cases h1 : cfg.fallbackEmail = "" <;>
    by_cases h2 : cfg.fallbackPassword = "" <;>
    simp [h1, h2]

/-- Normal form of `send_otp_email` in terms of the rotation helpers. -/
lemma send_otp_email_eq (cfg : MailerConfig) (sendOk : String → Bool)
    (st : MailerState) :
    send_otp_email cfg sendOk st
      = if listConfigOk cfg then
          (if sendOk (currentPoolUser cfg st) then
            (true, { rotatedState cfg st with
                     mailCounter := (rotatedState cfg st).mailCounter + 1 })
          else sendFallback cfg sendOk (rotatedState cfg st))
        else sendFallback cfg sendOk st := by
  unfold send_otp_email rotatedState currentPoolUser
  by_cases h : st.mailCounter ≥ cfg.threshold <;> simp [rotatedState, h]

/-- C9: when the pool is configured the current pool sender (after the
threshold-triggered circular rotation with counter reset) is used and its
counter is incremented after a success; a pool send failure falls through to
the single optional fallback credential with no further retries; and the
call returns false exactly when neither the pool path nor the fallback path
succeeds. -/
theorem send_otp_email_policy (cfg : MailerConfig) (sendOk : String → Bool)
    (st : MailerState) :
    (listConfigOk cfg = true → sendOk (currentPoolUser cfg st) = true →
       send_otp_email cfg sendOk st
         = (true, { rotatedState cfg st with
                    mailCounter := (rotatedState cfg st).mailCounter + 1 })) ∧
    (st.mailCounter ≥ cfg.threshold →
       rotatedState cfg st
         = { currentEmailIndex :=
               if st.currentEmailIndex + 1 ≥ cfg.emails.length then 0
               else st.currentEmailIndex + 1,
             mailCounter := 0 }) ∧
    (st.mailCounter < cfg.threshold → rotatedState cfg st = st) ∧
    (listConfigOk cfg = true → sendOk (currentPoolUser cfg st) = false →
       send_otp_email cfg sendOk st
         = (fallbackConfigured cfg && sendOk cfg.fallbackEmail,
            rotatedState cfg st)) ∧
    (listConfigOk cfg = false →
       send_otp_email cfg sendOk st
         = (fallbackConfigured cfg && sendOk cfg.fallbackEmail, st)) ∧
    ((send_otp_email cfg sendOk st).1
       = ((listConfigOk cfg && sendOk (currentPoolUser cfg st))
          || (fallbackConfigured cfg && sendOk cfg.fallbackEmail))) := by
  refine ⟨?_, ?_, ?_, ?_, ?_, ?_⟩
  · intro hl hs
    rw [send_otp_email_eq]
    simp [hl, hs]
  · intro h
    unfold rotatedState
    simp [h]
  · intro h
    unfold rotatedState
    simp [Nat.not_le_of_lt h]
  · intro hl hs
    rw [send_otp_email_eq]
    simp [hl, hs, sendFallback_eq]
  · intro hl
    rw [send_otp_email_eq]
    simp [hl, sendFallback_eq]
  · rw [send_otp_email_eq]
    by_cases hl : listConfigOk cfg <;>
      by_cases hs : sendOk (currentPoolUser cfg st) <;>
      simp [hl, hs, sendFallback_eq]

/-- Concrete run of the C9 theorem: at the threshold on the last pool entry,
the policy wraps to the first sender, resets the counter, and counts the
success. -/
theorem send_otp_email_policy_witness :
    send_otp_email ⟨["a@m.com", "b@m.com"], ["p1", "p2"], "", "", 2⟩
        (fun u => u == "a@m.com") ⟨1, 2⟩
      = (true, ⟨0, 1⟩) :=
  ((send_otp_email_policy ⟨["a@m.com", "b@m.com"], ["p1", "p2"], "", "", 2⟩
      (fun u => u == "a@m.com") ⟨1, 2⟩).1 (by decide) (by decide)).trans
    (by decide)

/-! ## C2: idempotence of the course resource resolver -/

/-- Number of channels with this name inside this category. -/
def countChannel (g : Guild) (name cat : String) : Nat :=
  (g.channels.filter (fun x => x.1 == name && x.2 == some cat)).length

/-- Lookup in an appended list succeeds when either part finds a hit. -/
lemma find?_append_isSome {α : Type} (p : α → Bool) (l1 l2 : List α) :
    ((l1 ++ l2).find? p).isSome
      = ((l1.find? p).isSome || (l2.find? p).isSome) := by
  induction l1 with
  | nil => simp
  | cons a l ih => by_cases h : p a <;> simp [List.find?_cons, h, ih]

/-- Channel creation never touches the role list. -/
lemma ensureChannel_roles (g : Guild) (p : Perms) (n c : String) :
    (ensureChannel g p n c).roles = g.roles := by
  unfold ensureChannel
  by_cases h1 : ((g.channels.find?
      (fun x => x.1 == n && x.2 == some c)).isSome = true) <;>
    by_cases h2 : p.canChannel = true <;> simp [h1, h2]

/-- Channel creation never touches the category list. -/
lemma ensureChannel_categories (g : Guild) (p : Perms) (n c : String) :
    (ensureChannel g p n c).categories = g.categories := by
  unfold ensureChannel
  by_cases h1 : ((g.channels.find?
      (fun x => x.1 == n && x.2 == some c)).isSome = true) <;>
    by_cases h2 : p.canChannel = true <;> simp [h1, h2]

/-- A channel already found stays found after another channel-creation
step. -/
lemma ensureChannel_channels_mono (g : Guild) (p : Perms) (n c : String)
    (q : String × Option String → Bool)
    (h : (g.channels.find? q).isSome = true) :
    ((ensureChannel g p n c).channels.find? q).isSome = true := by
  unfold ensureChannel
  by_cases h1 : ((g.channels.find?
      (fun x => x.1 == n && x.2 == some c)).isSome = true) <;>
    by_cases h2 : p.canChannel = true <;>
    simp [h1, h2, find?_append_isSome, h]

/-- After a permitted channel-creation step the channel is found. -/
lemma ensureChannel_finds_self (g : Guild) (p : Perms) (n c : String)
    (hp : p.canChannel = true) :
    ((ensureChannel g p n c).channels.find?
        (fun x => x.1 == n && x.2 == some c)).isSome = true := by
  unfold ensureChannel
  by_cases h1 : ((g.channels.find?
      (fun x => x.1 == n && x.2 == some c)).isSome = true)
  · simp [h1]
  · simp [h1, hp, find?_append_isSome]

/-- Channel creation is a no-op when the channel is already found. -/
lemma ensureChannel_found (g : Guild) (p : Perms) (n c : String)
    (h : (g.channels.find?
        (fun x => x.1 == n && x.2 == some c)).isSome = true) :
    ensureChannel g p n c = g := by
  unfold ensureChannel
  rw [if_pos h]

/-- A permitted channel-creation step creates the channel exactly when it
was absent. -/
lemma ensureChannel_count_self (g : Guild) (p : Perms) (n c : String)
    (hp : p.canChannel = true) :
    countChannel (ensureChannel g p n c) n c
      = if countChannel g n c = 0 then 1 else countChannel g n c := by
  unfold ensureChannel countChannel
  cases hf : g.channels.find? (fun x => x.1 == n && x.2 == some c) with
  | some y =>
      have hy := List.find?_some hf
      have hm := List.mem_of_find?_eq_some hf
      have hmem : y ∈ g.channels.filter (fun x => x.1 == n && x.2 == some c) :=
        List.mem_filter.mpr ⟨hm, hy⟩
      have hpos := List.length_pos.mpr (List.ne_nil_of_mem hmem)
      rw [if_pos (show (some y).isSome = true from rfl), if_neg (by omega)]
  | none =>
      have hnil : g.channels.filter (fun x => x.1 == n && x.2 == some c)
          = [] := by
        apply List.filter_eq_nil_iff.mpr
        intro a ha
        exact List.find?_eq_none.mp hf a ha
      rw [if_neg (by simp), if_pos hp]
      simp [hnil, List.filter_append]

/-- A channel-creation step for a different channel name leaves this name's
count unchanged. -/
lemma ensureChannel_count_other (g : Guild) (p : Perms) (n2 c2 n c : String)
    (hne : n ≠ n2) :
    countChannel (ensureChannel g p n2 c2) n c = countChannel g n c := by
  have hb : ((n2 == n) : Bool) = false := beq_eq_false_iff_ne.mpr (Ne.symm hne)
  unfold ensureChannel countChannel
  by_cases h1 : ((g.channels.find?
      (fun x => x.1 == n2 && x.2 == some c2)).isSome = true) <;>
    by_cases h2 : p.canChannel = true <;>
    simp [h1, h2, List.filter_append, hb]

/-- The two derived shared-channel names never coincide. -/
lemma announce_ne_discussion (u c : String) :
    announceChannelName u c ≠ discussionChannelName u c := by
  unfold announceChannelName discussionChannelName
  intro h
  have h2 := congrArg String.data h
  rw [String.data_append, String.data_append] at h2
  simp at h2

/-- After the shared-channel step both channels are found, the roles and
categories are untouched, and the handles are returned. -/
lemma ensureCourseChannels_post (g : Guild) (p : Perms) (u c R C : String)
    (hp : p.canChannel = true) :
    ((ensureCourseChannels g p u c R C).2.channels.find?
        (fun x => x.1 == announceChannelName u c && x.2 == some C)).isSome
      = true ∧
    ((ensureCourseChannels g p u c R C).2.channels.find?
        (fun x => x.1 == discussionChannelName u c && x.2 == some C)).isSome
      = true ∧
    (ensureCourseChannels g p u c R C).2.roles = g.roles ∧
    (ensureCourseChannels g p u c R C).2.categories = g.categories ∧
    (ensureCourseChannels g p u c R C).1 = (some R, some C) := by
  simp only [ensureCourseChannels]
  refine ⟨?_, ?_, ?_, ?_, by trivial⟩
  · exact ensureChannel_channels_mono _ p _ C _
      (ensureChannel_finds_self g p _ C hp)
  · exact ensureChannel_finds_self _ p _ C hp
  · rw [ensureChannel_roles, ensureChannel_roles]
  · rw [ensureChannel_categories, ensureChannel_categories]

/-- After the category-and-channels step (permissions granted) the category
and both channels are found, roles are untouched, and the handles are
returned. -/
lemma ensureCourseFromRole_post (g : Guild) (p : Perms) (u c R : String)
    (hp2 : p.canCategory = true) (hp3 : p.canChannel = true) :
    (ensureCourseFromRole g p u c R (categoryName u c)).2.roles = g.roles ∧
    ((ensureCourseFromRole g p u c R (categoryName u c)).2.categories.find?
        (fun x => x == categoryName u c)).isSome = true ∧
    ((ensureCourseFromRole g p u c R (categoryName u c)).2.channels.find?
        (fun x => x.1 == announceChannelName u c
          && x.2 == some (categoryName u c))).isSome = true ∧
    ((ensureCourseFromRole g p u c R (categoryName u c)).2.channels.find?
        (fun x => x.1 == discussionChannelName u c
          && x.2 == some (categoryName u c))).isSome = true ∧
    (ensureCourseFromRole g p u c R (categoryName u c)).1
      = (some R, some (categoryName u c)) := by
  unfold ensureCourseFromRole
  by_cases hcat : ((g.categories.find?
      (fun x => x == categoryName u c)).isSome = true)
  · rw [if_pos hcat]
    obtain ⟨ha, hd, hr, hc2, hres⟩ :=
      ensureCourseChannels_post g p u c R (categoryName u c) hp3
    exact ⟨hr, by rw [hc2]; exact hcat, ha, hd, hres⟩
  · rw [if_neg hcat, if_pos hp2]
    obtain ⟨ha, hd, hr, hc2, hres⟩ :=
      ensureCourseChannels_post
        { g with categories := g.categories ++ [categoryName u c] }
        p u c R (categoryName u c) hp3
    refine ⟨by rw [hr], ?_, ha, hd, hres⟩
    rw [hc2]
    show ((g.categories ++ [categoryName u c]).find?
        (fun x => x == categoryName u c)).isSome = true
    rw [find?_append_isSome]
    simp

/-- After a full-permission resolver call, role, category and both channels
are all found by their derived names, and the handles are returned. -/
lemma ensure_full_post (g : Guild) (u c : String) (hc : c ≠ "") :
    (((ensure_course_resources g ⟨true, true, true⟩ u c).2).roles.find?
        (fun r => r == courseRoleName u c)).isSome = true ∧
    (((ensure_course_resources g ⟨true, true, true⟩ u c).2).categories.find?
        (fun x => x == categoryName u c)).isSome = true ∧
    (((ensure_course_resources g ⟨true, true, true⟩ u c).2).channels.find?
        (fun x => x.1 == announceChannelName u c
          && x.2 == some (categoryName u c))).isSome = true ∧
    (((ensure_course_resources g ⟨true, true, true⟩ u c).2).channels.find?
        (fun x => x.1 == discussionChannelName u c
          && x.2 == some (categoryName u c))).isSome = true ∧
    (ensure_course_resources g ⟨true, true, true⟩ u c).1
      = (some (courseRoleName u c), some (categoryName u c)) := by
  simp only [ensure_course_resources]
  rw [if_neg hc]
  by_cases hr : ((g.roles.find?
      (fun r => r == courseRoleName u c)).isSome = true)
  · rw [if_pos hr]
    obtain ⟨h1, h2, h3, h4, h5⟩ :=
      ensureCourseFromRole_post g ⟨true, true, true⟩ u c
        (courseRoleName u c) rfl rfl
    exact ⟨by rw [h1]; exact hr, h2, h3, h4, h5⟩
  · rw [if_neg hr, if_pos (by trivial)]
    obtain ⟨h1, h2, h3, h4, h5⟩ :=
      ensureCourseFromRole_post
        { g with roles := g.roles ++ [courseRoleName u c] }
        ⟨true, true, true⟩ u c (courseRoleName u c) rfl rfl
    refine ⟨?_, h2, h3, h4, h5⟩
    rw [h1]
    show ((g.roles ++ [courseRoleName u c]).find?
        (fun r => r == courseRoleName u c)).isSome = true
    rw [find?_append_isSome]
    simp

/-- When role, category and both channels are already found by name, the
resolver returns the handles and changes nothing. -/
lemma ensure_found_all (g : Guild) (p : Perms) (u c : String) (hc : c ≠ "")
    (h1 : (g.roles.find? (fun r => r == courseRoleName u c)).isSome = true)
    (h2 : (g.categories.find? (fun x => x == categoryName u c)).isSome = true)
    (h3 : (g.channels.find? (fun x => x.1 == announceChannelName u c
            && x.2 == some (categoryName u c))).isSome = true)
    (h4 : (g.channels.find? (fun x => x.1 == discussionChannelName u c
            && x.2 == some (categoryName u c))).isSome = true) :
    ensure_course_resources g p u c
      = ((some (courseRoleName u c), some (categoryName u c)), g) := by
  simp only [ensure_course_resources]
  rw [if_neg hc, if_pos h1]
  unfold ensureCourseFromRole
  rw [if_pos h2]
  simp only [ensureCourseChannels]
  rw [ensureChannel_found g p _ _ h3, ensureChannel_found g p _ _ h4]

/-- The category-and-channels step's final state is the two channel-creation
steps applied to a guild with the original channel list. -/
lemma ensureCourseFromRole_pipeline (g : Guild) (p : Perms) (u c R : String)
    (hp2 : p.canCategory = true) :
    ∃ g2 : Guild, g2.channels = g.channels ∧
      (ensureCourseFromRole g p u c R (categoryName u c)).2
        = ensureChannel (ensureChannel g2 p
            (announceChannelName u c) (categoryName u c)) p
            (discussionChannelName u c) (categoryName u c) := by
  unfold ensureCourseFromRole
  by_cases hcat : ((g.categories.find?
      (fun x => x == categoryName u c)).isSome = true)
  · rw [if_pos hcat]
    exact ⟨g, rfl, rfl⟩
  · rw [if_neg hcat, if_pos hp2]
    exact ⟨{ g with categories := g.categories ++ [categoryName u c] },
      rfl, rfl⟩

/-- Under full permissions the resolver's final state is the two
channel-creation steps applied to a guild with the original channel list. -/
lemma ensure_full_channels_pipeline (g : Guild) (u c : String) (hc : c ≠ "") :
    ∃ g2 : Guild, g2.channels = g.channels ∧
      (ensure_course_resources g ⟨true, true, true⟩ u c).2
        = ensureChannel (ensureChannel g2 ⟨true, true, true⟩
            (announceChannelName u c) (categoryName u c)) ⟨true, true, true⟩
            (discussionChannelName u c) (categoryName u c) := by
  simp only [ensure_course_resources]
  rw [if_neg hc]
  by_cases hr : ((g.roles.find?
      (fun r => r == courseRoleName u c)).isSome = true)
  · rw [if_pos hr]
    obtain ⟨g2, hch, heq⟩ := ensureCourseFromRole_pipeline g
      ⟨true, true, true⟩ u c (courseRoleName u c) rfl
    exact ⟨g2, hch, heq⟩
  · rw [if_neg hr, if_pos (by trivial)]
    obtain ⟨g2, hch, heq⟩ := ensureCourseFromRole_pipeline
      { g with roles := g.roles ++ [courseRoleName u c] }
      ⟨true, true, true⟩ u c (courseRoleName u c) rfl
    exact ⟨g2, hch, heq⟩

/-- C2: the resolver returns null handles without creating anything when the
course name is empty; under full permissions it returns the deterministic
role and category handles, a second identical call returns the same handles
with no further state change, each shared channel is created exactly once
when absent (so over any number of calls exactly one announce and one
discussion channel exist); and a permission failure at the category step
still returns the role handle with a null category handle instead of
aborting. -/
theorem ensure_course_resources_idem (g : Guild) (p : Perms)
    (university course : String) :
    (course = "" →
       ensure_course_resources g p university course = ((none, none), g)) ∧
    (course ≠ "" → p = ⟨true, true, true⟩ →
       (ensure_course_resources g p university course).1
           = (some (courseRoleName university course),
              some (categoryName university course)) ∧
       ensure_course_resources
           (ensure_course_resources g p university course).2 p university
           course
         = ensure_course_resources g p university course) ∧
    (course ≠ "" → p = ⟨true, true, true⟩ →
       countChannel (ensure_course_resources g p university course).2
           (announceChannelName university course)
           (categoryName university course)
         = (if countChannel g (announceChannelName university course)
                 (categoryName university course) = 0 then 1
            else countChannel g (announceChannelName university course)
                 (categoryName university course)) ∧
       countChannel (ensure_course_resources g p university course).2
           (discussionChannelName university course)
           (categoryName university course)
         = (if countChannel g (discussionChannelName university course)
                 (categoryName university course) = 0 then 1
            else countChannel g (discussionChannelName university course)
                 (categoryName university course))) ∧
    (course ≠ "" → p.canRole = true → p.canCategory = false →
       (g.categories.find?
           (fun x => x == categoryName university course)).isSome = false →
       (ensure_course_resources g p university course).1
         = (some (courseRoleName university course), none)) := by
  refine ⟨?_, ?_, ?_, ?_⟩
  · intro h
    simp [ensure_course_resources, h]
  · intro hc hp
    subst hp
    obtain ⟨h1, h2, h3, h4, hres⟩ := ensure_full_post g university course hc
    refine ⟨hres, ?_⟩
    have h5 := ensure_found_all
      (ensure_course_resources g ⟨true, true, true⟩ university course).2
      ⟨true, true, true⟩ university course hc h1 h2 h3 h4
    rw [h5, ← hres]
  · intro hc hp
    subst hp
    obtain ⟨g2, hch, heq⟩ :=
      ensure_full_channels_pipeline g university course hc
    have hgc : ∀ n c2, countChannel g2 n c2 = countChannel g n c2 := by
      intro n c2
      unfold countChannel
      rw [hch]
    constructor
    · rw [heq,
        ensureChannel_count_other _ _ _ _ _ _
          (announce_ne_discussion university course),
        ensureChannel_count_self _ _ _ _ rfl, hgc]
    · rw [heq,
        ensureChannel_count_self _ _ _ _ rfl,
        ensureChannel_count_other _ _ _ _ _ _
          (Ne.symm (announce_ne_discussion university course)), hgc]
  · intro hc hrole hcat hfind
    simp only [ensure_course_resources, hc, if_false]
    by_cases hr : ((g.roles.find?
        (fun r => r == courseRoleName university course)).isSome = true)
    · simp only [hr, if_true, ensureCourseFromRole, hfind, hcat]
      simp
    · simp only [hr, if_false, hrole, if_true, ensureCourseFromRole,
        hfind, hcat]
      simp

/-- Concrete run of the C2 theorem: a second call for the same university
and course returns the same handles and leaves the guild unchanged. -/
theorem ensure_course_resources_idem_witness :
    ensure_course_resources
        (ensure_course_resources ⟨[], [], []⟩ ⟨true, true, true⟩ "VTU"
          "Android App Development").2
        ⟨true, true, true⟩ "VTU" "Android App Development"
      = ensure_course_resources ⟨[], [], []⟩ ⟨true, true, true⟩ "VTU"
          "Android App Development" :=
  ((ensure_course_resources_idem ⟨[], [], []⟩ ⟨true, true, true⟩ "VTU"
      "Android App Development").2.1 (by decide) rfl).2

end DiscordBot
